import Mathlib

/-!
Shallow embedding of the UDP chat application (client.py / server.py):
the envelope codec, the reliable-send retry engine, the client protocol
engine and the server protocol engine, together with theorems settling
the specification claims about them.
-/

set_option autoImplicit false

namespace Chat

/-! ## Envelope codec (json.loads / json.dumps level)

`decode_message` in both `client.py` and `server.py` is
`json.loads(message.decode("utf-8"))`.  We embed the decoded JSON values
and a recursive-descent parser for the JSON grammar.  Numbers are kept
as their raw lexeme (the protocol never computes with them), and the
UTF-8 byte layer is elided: the input is the decoded character list.
A `none` result models `json.loads` raising `json.JSONDecodeError`.
-/

inductive JValue where
  | null
  | jbool (b : Bool)
  | jnum (raw : String)
  | jstr (s : String)
  | jarr (xs : List JValue)
  | jobj (kvs : List (String × JValue))
deriving Repr

/-- Whitespace skipped by the JSON grammar (space, tab, newline,
carriage return). -/
def skipWs : List Char → List Char
  | [] => []
  | c :: r =>
    if c.toNat = 32 || c.toNat = 9 || c.toNat = 10 || c.toNat = 13 then skipWs r
    else c :: r

/-- Hex digit value for \uXXXX escapes, by code-point arithmetic. -/
def hexNibble (c : Char) : Option Nat :=
  let n := c.toNat
  if 48 ≤ n && n ≤ 57 then some (n - 48)
  else if 97 ≤ n && n ≤ 102 then some (n - 87)
  else if 65 ≤ n && n ≤ 70 then some (n - 55)
  else none

/-- Parse the body of a JSON string after the opening quote. -/
def parseStringBody : List Char → Option (String × List Char)
  | [] => none
  | '"' :: r => some ("", r)
  | '\\' :: e :: r =>
    match e with
    | '"' => (parseStringBody r).map (fun p => (⟨'"' :: p.1.toList⟩, p.2))
    | '\\' => (parseStringBody r).map (fun p => (⟨'\\' :: p.1.toList⟩, p.2))
    | '/' => (parseStringBody r).map (fun p => (⟨'/' :: p.1.toList⟩, p.2))
    | 'b' => (parseStringBody r).map (fun p => (⟨'\x08' :: p.1.toList⟩, p.2))
    | 'f' => (parseStringBody r).map (fun p => (⟨'\x0c' :: p.1.toList⟩, p.2))
    | 'n' => (parseStringBody r).map (fun p => (⟨'\n' :: p.1.toList⟩, p.2))
    | 'r' => (parseStringBody r).map (fun p => (⟨'\r' :: p.1.toList⟩, p.2))
    | 't' => (parseStringBody r).map (fun p => (⟨'\t' :: p.1.toList⟩, p.2))
    | 'u' =>
      match r with
      | a :: b :: c :: d :: r2 =>
        match hexNibble a, hexNibble b, hexNibble c, hexNibble d with
        | some x, some y, some z, some w =>
          let n := ((x * 16 + y) * 16 + z) * 16 + w
          (parseStringBody r2).map (fun p => (⟨Char.ofNat n :: p.1.toList⟩, p.2))
        | _, _, _, _ => none
      | _ => none
    | _ => none
  | c :: r =>
    if c.toNat < 32 then none
    else (parseStringBody r).map (fun p => (⟨c :: p.1.toList⟩, p.2))

/-- ASCII decimal digit, by code point. -/
def digitChar (c : Char) : Bool :=
  48 ≤ c.toNat && c.toNat ≤ 57

/-- Longest digit run at the head of the input and the remainder. -/
def digitSpan (cs : List Char) : List Char × List Char :=
  (cs.takeWhile digitChar, cs.dropWhile digitChar)

/-- Parse a JSON number lexeme (sign, integer part, fraction, exponent),
returning it unevaluated. -/
def parseNumber (cs : List Char) : Option (String × List Char) :=
  let (sign, cs1) :=
    match cs with
    | '-' :: r => (['-'], r)
    | _ => ([], cs)
  let (intPart, cs2) := digitSpan cs1
  if intPart.isEmpty then none
  else
    let (frac, cs3) :=
      match cs2 with
      | '.' :: r =>
        let p := digitSpan r
        if p.1.isEmpty then ([], cs2) else ('.' :: p.1, p.2)
      | _ => ([], cs2)
    if (match cs2 with | '.' :: _ => frac.isEmpty | _ => false) then none
    else
      let (expPart, cs4) :=
        match cs3 with
        | 'e' :: '+' :: r =>
          let p := digitSpan r
          if p.1.isEmpty then ([], cs3) else ('e' :: '+' :: p.1, p.2)
        | 'e' :: '-' :: r =>
          let p := digitSpan r
          if p.1.isEmpty then ([], cs3) else ('e' :: '-' :: p.1, p.2)
        | 'e' :: r =>
          let p := digitSpan r
          if p.1.isEmpty then ([], cs3) else ('e' :: p.1, p.2)
        | 'E' :: '+' :: r =>
          let p := digitSpan r
          if p.1.isEmpty then ([], cs3) else ('E' :: '+' :: p.1, p.2)
        | 'E' :: '-' :: r =>
          let p := digitSpan r
          if p.1.isEmpty then ([], cs3) else ('E' :: '-' :: p.1, p.2)
        | 'E' :: r =>
          let p := digitSpan r
          if p.1.isEmpty then ([], cs3) else ('E' :: p.1, p.2)
        | _ => ([], cs3)
      if (match cs3 with | 'e' :: _ => expPart.isEmpty | 'E' :: _ => expPart.isEmpty | _ => false) then none
      else some (⟨sign ++ intPart ++ frac ++ expPart⟩, cs4)

/-- Parser modes: a whole value, the tail of an array after `[`,
or the tail of an object after `{` (first member not yet consumed). -/
inductive PMode where
  | val
  | arrTail
  | objTail

/-- Recursive-descent JSON parser, fuel-indexed so that recursion is
structural and evaluation reduces in the kernel. -/
def parseJ : Nat → PMode → List Char → Option (JValue × List Char)
  | 0, _, _ => none
  | fuel + 1, .val, cs =>
    match skipWs cs with
    | 'n' :: 'u' :: 'l' :: 'l' :: r => some (.null, r)
    | 't' :: 'r' :: 'u' :: 'e' :: r => some (.jbool true, r)
    | 'f' :: 'a' :: 'l' :: 's' :: 'e' :: r => some (.jbool false, r)
    | '"' :: r => (parseStringBody r).map (fun p => (.jstr p.1, p.2))
    | '[' :: r =>
      match skipWs r with
      | ']' :: r2 => some (.jarr [], r2)
      | _ => parseJ fuel .arrTail r
    | '{' :: r =>
      match skipWs r with
      | '}' :: r2 => some (.jobj [], r2)
      | _ => parseJ fuel .objTail r
    | c :: r =>
      if c = '-' || digitChar c then
        (parseNumber (c :: r)).map (fun p => (.jnum p.1, p.2))
      else none
    | [] => none
  | fuel + 1, .arrTail, cs =>
    match parseJ fuel .val cs with
    | none => none
    | some (v, r) =>
      match skipWs r with
      | ',' :: r2 =>
        match parseJ fuel .arrTail r2 with
        | some (.jarr vs, r3) => some (.jarr (v :: vs), r3)
        | _ => none
      | ']' :: r2 => some (.jarr [v], r2)
      | _ => none
  | fuel + 1, .objTail, cs =>
    match skipWs cs with
    | '"' :: r =>
      match parseStringBody r with
      | none => none
      | some (k, r1) =>
        match skipWs r1 with
        | ':' :: r2 =>
          match parseJ fuel .val r2 with
          | none => none
          | some (v, r3) =>
            match skipWs r3 with
            | ',' :: r4 =>
              match parseJ fuel .objTail r4 with
              | some (.jobj kvs, r5) => some (.jobj ((k, v) :: kvs), r5)
              | _ => none
            | '}' :: r4 => some (.jobj [(k, v)], r4)
            | _ => none
        | _ => none
    | _ => none

/-- The codec's decode step (`json.loads` over the received datagram):
parse one JSON value and require only whitespace to remain.  `none`
models a raised `json.JSONDecodeError`. -/
def decode_message (data : List Char) : Option JValue :=
  match parseJ (2 * data.length + 2) .val data with
  | none => none
  | some (v, rest) =>
    match skipWs rest with
    | [] => some v
    | _ => none

/-! ## Listener loops and decode failure

`Server.listen` wraps its receive/decode/dispatch body in
`try ... except socket.error`, which does not catch the
`json.JSONDecodeError` raised by `decode_message`; `Client.server_listen`
has no handler at all.  In both loops a decode failure therefore
propagates out of the `while` loop and terminates the listener. -/

inductive ListenStep where
  /-- Decode succeeded; the decoded value is passed to `handle_request`
  and the loop continues with the next poll cycle. -/
  | dispatched (msg : JValue)
  /-- An uncaught decode exception propagates out of the listener loop,
  terminating it. -/
  | crashed
deriving Repr

/-- One iteration of `Server.listen` on a received datagram, restricted
to the decode stage: the surrounding `except socket.error` clause does
not catch `json.JSONDecodeError`, so a failed decode escapes the loop. -/
def server_listen_step (data : List Char) : ListenStep :=
  match decode_message data with
  | some j => .dispatched j
  | none => .crashed

/-- One iteration of `Client.server_listen` on a received datagram: the
loop body has no exception handler, so a failed decode escapes the
loop and ends the listener thread. -/
def client_listen_step (data : List Char) : ListenStep :=
  match decode_message data with
  | some j => .dispatched j
  | none => .crashed

/-! ## Data model

Client/server envelope metadata is `{**self.opts}`: for a client the
opts are `{name, server_ip, server_port, client_port}`.  The server
stores a registered client as `{**metadata, "sender_ip": sender_ip}`
(`Server.new_client`); note the record carries no `client_ip` field. -/

structure Metadata where
  name : String
  server_ip : String
  server_port : Nat
  client_port : Nat
deriving Repr, DecidableEq

structure PresenceRecord where
  name : String
  server_ip : String
  server_port : Nat
  client_port : Nat
  sender_ip : String
deriving Repr, DecidableEq

/-- Structured view of the JSON payloads the protocol actually sends:
`null`, a bare string, the presence table (`state_change`), the group
name list, the member list, `{"message", "sender"}` (server fan-out),
`{"message", "group"}` (client group send), `{"group"}` and
`{"message"}` objects.  Group fields are `Option String` because the
client interpolates `self.active_group`, which may be Python `None`. -/
inductive Payload where
  | pnull
  | pstr (s : String)
  | table (t : List (String × PresenceRecord))
  | groups (gs : List String)
  | members (ms : List String)
  | gmsg (message sender : String)
  | gsend (message : String) (group : Option String)
  | gref (group : Option String)
  | errmsg (message : String)
deriving Repr, DecidableEq

/-- One `sock.sendto` call: destination address and the envelope's type
and payload.  The port is `Option Nat` because the code can feed a
missing (`None`) port into the address tuple. -/
structure Sent where
  ip : String
  port : Option Nat
  type : String
  payload : Payload
deriving Repr, DecidableEq

/-! ## Reliable Send Engine

Every client request expecting a reply repeats the same inline loop
(`Client.send_dm` lines 164-175 and six siblings):

    retries = 0
    self.waiting_for_ack = True
    while self.waiting_for_ack and retries <= 5:
        sock.sendto(message, destination)
        if retries <= 4:
            time.sleep(self.delay)        # 500 ms
        retries += 1
    if self.waiting_for_ack:
        <escalation>

The flag is cleared asynchronously by the listener thread; `acked k`
says whether the flag has been cleared by the time of the loop-condition
check with `retries = k` (the final post-loop read is identified with
the check at `k = 6`).  The result is (sends, 500 ms sleeps, flag still
waiting at exit). -/

def retry_go (acked : Nat → Bool) : Nat → Nat → Nat × Nat × Bool
  | 0, _ => (0, 0, true)
  | fuel + 1, retries =>
    if acked retries then (0, 0, false)
    else if retries ≤ 5 then
      let rest := retry_go acked fuel (retries + 1)
      (rest.1 + 1, (if retries ≤ 4 then rest.2.1 + 1 else rest.2.1), rest.2.2)
    else (0, 0, true)

def retry_loop (acked : Nat → Bool) : Nat × Nat × Bool :=
  retry_go acked 7 0

/-- The engine's observable budget: (send attempts, inter-attempt 500 ms
delays, escalation invocations) for one invocation with acknowledgment
schedule `acked`. -/
def reliable_send (acked : Nat → Bool) : Nat × Nat × Nat :=
  let r := retry_loop acked
  (r.1, r.2.1, if r.2.2 then 1 else 0)

/-- The packets put on the wire by one retry loop sending `pkt`,
with the sleep count and the exit value of the waiting flag. -/
def run_retry (acked : Nat → Bool) (pkt : Sent) : List Sent × Nat × Bool :=
  let r := retry_loop acked
  (List.replicate r.1 pkt, r.2.1, r.2.2)

/-! ## Client Protocol Engine -/

structure ClientState where
  opts : Metadata
  connections : List (String × PresenceRecord)
  is_registered : Bool
  active_group : Option String
  waiting_for_ack : Bool
  inbox : List (String × String)
  stopped : Bool
deriving Repr, DecidableEq

/-- Observable effects of one user command: packets sent, 500 ms sleeps,
log lines, and whether `stop_event` was set. -/
structure CmdEffects where
  sends : List Sent
  sleeps : Nat
  logs : List String
  stopped : Bool
deriving Repr, DecidableEq

/-- Shared shape of the server-directed retry senders (`list_groups`,
`create_group`, `notify_server_client_offline`, `send_group_message`,
`join_group`, `send_list_group_members`, `send_leave_group`): retry the
envelope against the server address, and on exhaustion log
"Server not responding" / "Exiting" and set `stop_event`. -/
def server_retry_cmd (st : ClientState) (acked : Nat → Bool)
    (type : String) (payload : Payload) : CmdEffects :=
  let pkt : Sent := ⟨st.opts.server_ip, some st.opts.server_port, type, payload⟩
  let r := run_retry acked pkt
  { sends := r.1, sleeps := r.2.1,
    logs := if r.2.2 then ["Server not responding", "Exiting"] else [],
    stopped := r.2.2 }

def list_groups (st : ClientState) (acked : Nat → Bool) : CmdEffects :=
  server_retry_cmd st acked "list_groups" .pnull

def create_group (st : ClientState) (acked : Nat → Bool) (group : String) : CmdEffects :=
  server_retry_cmd st acked "create_group" (.pstr group)

def notify_server_client_offline (st : ClientState) (acked : Nat → Bool)
    (client : String) : CmdEffects :=
  server_retry_cmd st acked "client_offline" (.pstr client)

def send_group_message (st : ClientState) (acked : Nat → Bool) (msg : String) : CmdEffects :=
  server_retry_cmd st acked "group_message" (.gsend msg st.active_group)

def join_group (st : ClientState) (acked : Nat → Bool) (group : String) : CmdEffects :=
  server_retry_cmd st acked "join_group" (.pstr group)

def send_list_group_members (st : ClientState) (acked : Nat → Bool) : CmdEffects :=
  server_retry_cmd st acked "list_members" (.gref st.active_group)

def send_leave_group (st : ClientState) (acked : Nat → Bool) : CmdEffects :=
  server_retry_cmd st acked "leave_group" (.gref st.active_group)

/-- `Client.send_dm`: look the recipient up in the local presence
snapshot; if absent, log and return with no send.  Otherwise retry the
`message` envelope against `("0.0.0.0", client_port)` — the source
hardcodes the ip (`client_ip = "0.0.0.0"  # @todo ...`) and takes only
`client_port` from the snapshot record.  On exhaustion, log and notify
the server that the recipient is offline (a second retry loop with its
own schedule `ackedOffline`). -/
def send_dm (st : ClientState) (acked ackedOffline : Nat → Bool)
    (recipient text : String) : CmdEffects :=
  match st.connections.lookup recipient with
  | none =>
    { sends := [], sleeps := 0,
      logs := [s!"Unable to send to non-existent {recipient}."], stopped := false }
  | some r =>
    let pkt : Sent := ⟨"0.0.0.0", some r.client_port, "message", .pstr text⟩
    let lp := run_retry acked pkt
    if lp.2.2 then
      let esc := notify_server_client_offline st ackedOffline recipient
      { sends := lp.1 ++ esc.sends, sleeps := lp.2.1 + esc.sleeps,
        logs := [s!"No ACK from {recipient}, message not delivered"] ++ esc.logs,
        stopped := esc.stopped }
    else
      { sends := lp.1, sleeps := lp.2.1, logs := [], stopped := false }

/-- `Client.deregister`: same loop shape but conditioned on
`self.is_registered`; `regAt k` is the flag's value at check `k`. -/
def deregister (st : ClientState) (regAt : Nat → Bool) : CmdEffects :=
  let pkt : Sent := ⟨st.opts.server_ip, some st.opts.server_port, "deregistration", .pnull⟩
  let r := run_retry (fun k => !(regAt k)) pkt
  { sends := r.1, sleeps := r.2.1,
    logs := if r.2.2 then ["Server not responding", "Exiting"] else [],
    stopped := r.2.2 }

/-- Literal-prefix test on strings (what `re.match` with a literal
pattern head performs), via character lists so that it evaluates in the
kernel. -/
def strHasPrefix (pre s : String) : Bool :=
  pre.toList.isPrefixOf s.toList

/-- Python `s.split(" ")`: split on every single space, keeping empty
fields. -/
def splitSpacesAux : List Char → List (List Char)
  | [] => [[]]
  | c :: r =>
    let rest := splitSpacesAux r
    if c = ' ' then [] :: rest
    else
      match rest with
      | h :: t => (c :: h) :: t
      | [] => [[c]]

def splitSpaces (s : String) : List String :=
  (splitSpacesAux s.toList).map List.asString

/-- Python `" ".join(parts)`. -/
def joinSpaces : List String → String
  | [] => ""
  | [p] => p
  | p :: rest => p ++ " " ++ joinSpaces rest

/-- `Client.send_message`: the command dispatcher.  Each
`re.match(pat, input)` in the source anchors at the start of the input,
so it is a literal-prefix test; `send (.*) (.*)` additionally needs a
space in the remainder.  The branches are tried in source order.  Only
`list_members` consults the current mode; every other networked branch
fires regardless of `active_group`. -/
def send_message (st : ClientState) (acked ackedOffline regAt : Nat → Bool)
    (input : String) : CmdEffects :=
  if strHasPrefix "dereg " input then
    deregister st regAt
  else if strHasPrefix "send " input && (input.toList.drop 5).contains ' ' then
    let parts := splitSpaces input
    send_dm st acked ackedOffline (parts.getD 1 "") (joinSpaces (parts.drop 2))
  else if strHasPrefix "create_group " input then
    create_group st acked ((splitSpaces input).getD 1 "")
  else if strHasPrefix "list_groups" input then
    list_groups st acked
  else if strHasPrefix "list_members" input then
    if st.active_group.isNone then
      { sends := [], sleeps := 0,
        logs := ["Invalid command. You need to be in a group first!"], stopped := false }
    else
      send_list_group_members st acked
  else if strHasPrefix "join_group " input then
    join_group st acked ((splitSpaces input).getD 1 "")
  else if strHasPrefix "send_group " input then
    send_group_message st acked (joinSpaces ((splitSpaces input).drop 1))
  else if strHasPrefix "leave_group" input then
    send_leave_group st acked
  else
    { sends := [], sleeps := 0, logs := [s!"Unknown command `{input}`."], stopped := false }

/-! ## Client inbound dispatch -/

/-- A well-formed inbound envelope as seen by `Client.handle_request`:
its type string, structured payload, and the `metadata.name` field
(the only metadata field the client dispatcher reads). -/
structure CEnvelope where
  type : String
  payload : Payload
  meta_name : String
deriving Repr, DecidableEq

inductive ClientErr where
  /-- `sock.sendto` with a `None` port in the address tuple raises
  `TypeError`, which no handler in the listener catches. -/
  | typeErr
  /-- Payload shape outside the protocol's use of this message type;
  not modelled. -/
  | unmodeled
deriving Repr, DecidableEq

/-- Outcome of dispatching one inbound envelope: successor state, the
packets sent and lines printed before returning or raising, and the
escaping exception if any. -/
structure ClientOutcome where
  state : ClientState
  sends : List Sent
  prints : List String
  exn : Option ClientErr
deriving Repr, DecidableEq

/-- Python renders `None` in an f-string as "None". -/
def pyOptStr : Option String → String
  | some s => s
  | none => "None"

/-- `Client.send_dm_ack`: the recipient is fetched with
`.get(recipient_name, {})`, so an unknown sender yields a `None` port
and the send raises `TypeError` (`none` here). -/
def send_dm_ack (st : ClientState) (recipient : String) : Option Sent :=
  match st.connections.lookup recipient with
  | some r => some ⟨"0.0.0.0", some r.client_port, "message_ack", .pstr st.opts.name⟩
  | none => none

/-- `Client.print_inbox`: print `"sender: message"` for each queued
entry in order (the queue is then cleared by the caller's state). -/
def print_inbox (inbox : List (String × String)) : List String :=
  inbox.map (fun e => e.1 ++ ": " ++ e.2)

def ok_out (st : ClientState) (sends : List Sent) (prints : List String) : ClientOutcome :=
  ⟨st, sends, prints, none⟩

/-- `Client.handle_request`: the inbound dispatch table, in source
order.  Note the `group_message` branch only prints — the ack send is
commented out in the source (`## send ack back to server ...`). -/
def client_handle_request (st : ClientState) (env : CEnvelope) : ClientOutcome :=
  let t := env.type
  if t = "registration_confirmation" then
    ok_out { st with is_registered := true } [] []
  else if t = "registration_error" then
    ok_out { st with stopped := true } [] []
  else if t = "state_change" then
    match env.payload with
    | .table tbl => ok_out { st with connections := tbl } [] ["Client table updated."]
    | _ => ⟨st, [], [], some .unmodeled⟩
  else if t = "deregistration_confirmation" then
    ok_out { st with is_registered := false, stopped := true } [] []
  else if t = "create_group_ack" then
    ok_out { st with waiting_for_ack := false } [] []
  else if t = "create_group_error" then
    ok_out { st with waiting_for_ack := false } [] []
  else if t = "join_group_ack" then
    match env.payload with
    | .pstr g => ok_out { st with waiting_for_ack := false, active_group := some g } [] []
    | .pnull => ok_out { st with waiting_for_ack := false, active_group := none } [] []
    | _ => ⟨st, [], [], some .unmodeled⟩
  else if t = "join_group_error" then
    ok_out { st with waiting_for_ack := false } [] []
  else if t = "list_groups_ack" then
    ok_out { st with waiting_for_ack := false } [] []
  else if t = "message" then
    let sender := env.meta_name
    let msg :=
      match env.payload with
      | .pstr m => m
      | .pnull => "None"
      | _ => ""
    match st.active_group with
    | none =>
      match send_dm_ack st sender with
      | some pkt => ok_out st [pkt] [sender ++ ": " ++ msg]
      | none => ⟨st, [], [sender ++ ": " ++ msg], some .typeErr⟩
    | some _ =>
      match send_dm_ack st sender with
      | some pkt => ok_out { st with inbox := st.inbox ++ [(sender, msg)] } [pkt] []
      | none => ⟨st, [], [], some .typeErr⟩
  else if t = "message_ack" then
    ok_out { st with waiting_for_ack := false } [] []
  else if t = "client_offline_ack" then
    ok_out { st with waiting_for_ack := false } [] []
  else if t = "group_message" then
    match env.payload with
    | .gmsg m s =>
      let g := pyOptStr st.active_group
      ok_out st [] [">>> (" ++ g ++ ") Group_Message <" ++ s ++ "> " ++ m]
    | _ => ⟨st, [], [], some .unmodeled⟩
  else if t = "members_list" then
    match env.payload with
    | .members ms =>
      let g := pyOptStr st.active_group
      ok_out { st with waiting_for_ack := false } []
        ((">>> (" ++ g ++ ") Members in the group " ++ g ++ ":") ::
          ms.map (fun m => ">>> (" ++ g ++ ") " ++ m))
    | _ => ⟨st, [], [], some .unmodeled⟩
  else if t = "leave_group_ack" then
    ok_out { st with waiting_for_ack := false, active_group := none, inbox := [] }
      [] (print_inbox st.inbox)
  else if t = "group_message_ack" then
    let g := pyOptStr st.active_group
    ok_out { st with waiting_for_ack := false } []
      [">>> (" ++ g ++ ") [Message received by Server.]"]
  else
    ok_out st [] ["got unknown message"]

/-- `Client.send_group_message_ack` as written in the source: the ack
the client would send to the server for a received group message.  No
call site exists in the repository. -/
def send_group_message_ack (st : ClientState) : Sent :=
  ⟨st.opts.server_ip, some st.opts.server_port, "group_message_ack", .gref st.active_group⟩

/-! ## Server Protocol Engine

`Server.__init__` holds `connections` (the presence table), `groups`
(the group registry) and `outbound_group_acks` (the per-group ack
tracker).  Python dicts are embedded as association lists in insertion
order: assignment updates in place or appends, `del` removes the key or
raises `KeyError`, `list.remove` drops the first occurrence or raises
`ValueError`. -/

structure ServerState where
  connections : List (String × PresenceRecord)
  groups : List (String × List String)
  outbound_group_acks : List (String × List String)
deriving Repr, DecidableEq

/-- Python dict assignment `d[k] = v`. -/
def upsert {V : Type} : List (String × V) → String → V → List (String × V)
  | [], k, v => [(k, v)]
  | e :: t, k, v => if e.1 = k then (k, v) :: t else e :: upsert t k v

/-- Python `del d[k]`; `none` models the raised `KeyError`. -/
def del_key {V : Type} : List (String × V) → String → Option (List (String × V))
  | [], _ => none
  | e :: t, k => if e.1 = k then some t else (del_key t k).map (fun t2 => e :: t2)

/-- Python `l.remove(x)`; `none` models the raised `ValueError`. -/
def remove_first : List String → String → Option (List String)
  | [], _ => none
  | h :: t, x => if h = x then some t else (remove_first t x).map (fun t2 => h :: t2)

deriving instance DecidableEq for Except

inductive ServerErr where
  /-- An uncaught Python `KeyError` for the given key. -/
  | keyError (k : String)
  /-- An uncaught Python `ValueError` (`list.remove` on a missing
  element). -/
  | valueError
  /-- Payload shape outside the protocol's use of this message type;
  not modelled. -/
  | unmodeled
deriving Repr, DecidableEq

/-- Outcome of `Server.handle_request` on one envelope: successor state,
packets sent and wait tasks spawned before returning or raising, and
the escaping exception if any. -/
structure ServerOutcome where
  state : ServerState
  sends : List Sent
  spawned : List (String × String)
  exn : Option ServerErr
deriving Repr, DecidableEq

/-- `Server.new_client` stores `{**metadata, "sender_ip": sender_ip}`. -/
def mkRecord (m : Metadata) (sender_ip : String) : PresenceRecord :=
  ⟨m.name, m.server_ip, m.server_port, m.client_port, sender_ip⟩

/-- `Server.dispatch_connections_change`: send the full current table
to every member at `(sender_ip, client_port)`. -/
def dispatch_connections_change (conns : List (String × PresenceRecord)) : List Sent :=
  conns.map (fun e => ⟨e.2.sender_ip, some e.2.client_port, "state_change", .table conns⟩)

/-- Fan-out helper of `Server.dispatch_group_message`: one
`group_message` per listed client, addressed from its presence record;
`self.connections[client]` raises `KeyError` for an unknown client. -/
def dispatch_to_members (conns : List (String × PresenceRecord)) (sender msg : String) :
    List String → Except ServerErr (List Sent)
  | [] => .ok []
  | c :: rest =>
    match conns.lookup c with
    | none => .error (.keyError c)
    | some m =>
      match dispatch_to_members conns sender msg rest with
      | .error e => .error e
      | .ok ss => .ok (⟨m.sender_ip, some m.client_port, "group_message", .gmsg msg sender⟩ :: ss)

/-- `Server.dispatch_group_message`: send the message to every group
member except the sender. -/
def dispatch_group_message (st : ServerState) (sender group msg : String) :
    Except ServerErr (List Sent) :=
  match st.groups.lookup group with
  | none => .error (.keyError group)
  | some members => dispatch_to_members st.connections sender msg (members.filter (fun u => u ≠ sender))

/-- A well-formed inbound envelope as seen by `Server.handle_request`. -/
structure SEnvelope where
  type : String
  payload : Payload
  metadata : Metadata
deriving Repr, DecidableEq

/-- `Server.handle_request`: the dispatch table, in source order.
Sends that precede a raised exception are recorded in the outcome. -/
def server_handle_request (st : ServerState) (sender_ip : String) (env : SEnvelope) :
    ServerOutcome :=
  let t := env.type
  let name := env.metadata.name
  let cport := env.metadata.client_port
  if t = "registration" then
    match st.connections.lookup name with
    | some _ =>
      ⟨st, [⟨sender_ip, some cport, "registration_error", .errmsg s!"`{name}` already exists!"⟩],
        [], none⟩
    | none =>
      let conf : Sent := ⟨sender_ip, some cport, "registration_confirmation", .pnull⟩
      let conns2 := upsert st.connections name (mkRecord env.metadata sender_ip)
      ⟨{ st with connections := conns2 }, conf :: dispatch_connections_change conns2, [], none⟩
  else if t = "deregistration" then
    let conf : Sent := ⟨sender_ip, some cport, "deregistration_confirmation", .pnull⟩
    match del_key st.connections name with
    | none => ⟨st, [conf], [], some (.keyError name)⟩
    | some conns2 =>
      ⟨{ st with connections := conns2 }, conf :: dispatch_connections_change conns2, [], none⟩
  else if t = "create_group" then
    match env.payload with
    | .pstr g =>
      match st.groups.lookup g with
      | some _ =>
        ⟨st, [⟨sender_ip, some cport, "create_group_error", .errmsg s!"Group `{g}` already exists."⟩],
          [], none⟩
      | none =>
        ⟨{ st with groups := upsert st.groups g [] },
          [⟨sender_ip, some cport, "create_group_ack", .pstr g⟩], [], none⟩
    | _ => ⟨st, [], [], some .unmodeled⟩
  else if t = "list_groups" then
    ⟨st, [⟨sender_ip, some cport, "list_groups_ack", .groups (st.groups.map (fun e => e.1))⟩],
      [], none⟩
  else if t = "join_group" then
    match env.payload with
    | .pstr g =>
      match st.groups.lookup g with
      | none =>
        ⟨st, [⟨sender_ip, some cport, "join_group_error", .errmsg s!"Group `{g}` does not exist."⟩],
          [], none⟩
      | some ms =>
        ⟨{ st with groups := upsert st.groups g (ms ++ [name]) },
          [⟨sender_ip, some cport, "join_group_ack", .pstr g⟩], [], none⟩
    | _ => ⟨st, [], [], some .unmodeled⟩
  else if t = "client_offline" then
    match env.payload with
    | .pstr c =>
      match del_key st.connections c with
      | none => ⟨st, [], [], some (.keyError c)⟩
      | some conns2 =>
        ⟨{ st with connections := conns2 },
          dispatch_connections_change conns2 ++ [⟨sender_ip, some cport, "client_offline_ack", .pstr c⟩],
          [], none⟩
    | _ => ⟨st, [], [], some .unmodeled⟩
  else if t = "group_message" then
    match env.payload with
    | .gsend m gOpt =>
      let ackPkt : Sent := ⟨sender_ip, some cport, "group_message_ack", .pnull⟩
      match gOpt with
      | some g =>
        let st2 := { st with outbound_group_acks := upsert st.outbound_group_acks g [] }
        match dispatch_group_message st2 name g m with
        | .error e => ⟨st2, [ackPkt], [], some e⟩
        | .ok fanout => ⟨st2, ackPkt :: fanout, [(name, g)], none⟩
      | none => ⟨st, [ackPkt], [], some .unmodeled⟩
    | _ => ⟨st, [], [], some .unmodeled⟩
  else if t = "group_message_ack" then
    match env.payload with
    | .gref (some g) =>
      match st.outbound_group_acks.lookup g with
      | none => ⟨st, [], [], some (.keyError g)⟩
      | some acks =>
        ⟨{ st with outbound_group_acks := upsert st.outbound_group_acks g (acks ++ [name]) },
          [], [], none⟩
    | _ => ⟨st, [], [], some .unmodeled⟩
  else if t = "list_members" then
    match env.payload with
    | .gref (some g) =>
      match st.groups.lookup g with
      | none => ⟨st, [], [], some (.keyError g)⟩
      | some ms => ⟨st, [⟨sender_ip, some cport, "members_list", .members ms⟩], [], none⟩
    | _ => ⟨st, [], [], some .unmodeled⟩
  else if t = "leave_group" then
    match env.payload with
    | .gref (some g) =>
      match st.groups.lookup g with
      | none => ⟨st, [], [], some (.keyError g)⟩
      | some ms =>
        match remove_first ms name with
        | none => ⟨st, [], [], some .valueError⟩
        | some ms2 =>
          ⟨{ st with groups := upsert st.groups g ms2 },
            [⟨sender_ip, some cport, "leave_group_ack", .pnull⟩], [], none⟩
    | _ => ⟨st, [], [], some .unmodeled⟩
  else
    ⟨st, [], [], none⟩

/-! ## Group broadcast acknowledgment wait task

`Server.wait_for_group_acks` polls the group's ack tracker up to 6
times at 500 ms against the expected-acker list computed at task start.
`trackerAt k` is the tracker entry's contents when the loop condition
body reads it at `retries = k`; the post-loop eviction read is
`trackerAt 6`. -/

/-- Code-point lexicographic comparison, Python string `<=`. -/
def lexLe : List Char → List Char → Bool
  | [], _ => true
  | _ :: _, [] => false
  | a :: as, b :: bs =>
    if a.toNat < b.toNat then true
    else if a.toNat = b.toNat then lexLe as bs
    else false

def insertSorted (x : String) : List String → List String
  | [] => [x]
  | h :: t => if lexLe x.toList h.toList then x :: h :: t else h :: insertSorted x t

/-- Python `sorted()` on a list of strings. -/
def sort_strs (l : List String) : List String :=
  l.foldr insertSorted []

/-- The polling loop of `wait_for_group_acks`: `true` means the loop
exhausted its 6 polls with the tracker never matching the expected set
(`waiting_for_acks` still true on exit). -/
def ack_poll_go (trackerAt : Nat → List String) (expected : List String) :
    Nat → Nat → Bool
  | 0, _ => true
  | fuel + 1, retries =>
    if retries ≤ 5 then
      if sort_strs (trackerAt retries) == sort_strs expected then false
      else ack_poll_go trackerAt expected fuel (retries + 1)
    else true

def ack_poll (trackerAt : Nat → List String) (expected : List String) : Bool :=
  ack_poll_go trackerAt expected 7 0

/-- The eviction sweep on exhaustion: `self.groups[group].remove(c)`
for each unacked client. -/
def evict_members (group : String) : ServerState → List String → Except ServerErr ServerState
  | st, [] => .ok st
  | st, c :: rest =>
    match st.groups.lookup group with
    | none => .error (.keyError group)
    | some ms =>
      match remove_first ms c with
      | none => .error .valueError
      | some ms2 => evict_members group { st with groups := upsert st.groups group ms2 } rest

/-- `Server.wait_for_group_acks`.  The expected-acker list is the
group's member list minus the sender, read once at task start.  On
exhaustion the unacked clients (`set(expected) - set(acks)`, an
unordered set — enumerated here by first occurrence in `expected`) are
removed from the group's member list.  The presence table and the ack
tracker are not touched. -/
def wait_for_group_acks (st : ServerState) (trackerAt : Nat → List String)
    (sender group : String) : Except ServerErr ServerState :=
  match st.groups.lookup group with
  | none => .error (.keyError group)
  | some members =>
    let expected := members.filter (fun u => u ≠ sender)
    if ack_poll trackerAt expected then
      let finalAcks := trackerAt 6
      let unacked := (expected.filter (fun c => !(finalAcks.contains c))).dedup
      evict_members group st unacked
    else .ok st

/-! ## Spec-side command gating (refinement target for C5)

These two definitions follow the spec's words, not the source: §4.3
gives the mode-gated verb sets (direct-mode-only
`{create_group, list_groups, join_group}`, group-mode-only
`{send_group, list_members, leave_group}`, both-modes `{dereg, send}`),
with the verb read as the command's first whitespace-separated token.
They are compared against the behaviour of `send_message`. -/

inductive Verb where
  | dereg | send | create_group | list_groups | join_group
  | send_group | list_members | leave_group | unknown
deriving Repr, DecidableEq

def verb_of_input (input : String) : Verb :=
  match (splitSpaces input).headD "" with
  | "dereg" => .dereg
  | "send" => .send
  | "create_group" => .create_group
  | "list_groups" => .list_groups
  | "join_group" => .join_group
  | "send_group" => .send_group
  | "list_members" => .list_members
  | "leave_group" => .leave_group
  | _ => .unknown

def spec_allowed (inGroup : Bool) : Verb → Bool
  | .dereg => true
  | .send => true
  | .create_group => !inGroup
  | .list_groups => !inGroup
  | .join_group => !inGroup
  | .send_group => inGroup
  | .list_members => inGroup
  | .leave_group => inGroup
  | .unknown => false

/-- Disjunction of the pattern guards of `send_message`, in source
order: an input matching none of them reaches the final
"Unknown command" branch. -/
def cmd_matched (input : String) : Bool :=
  strHasPrefix "dereg " input ||
  (strHasPrefix "send " input && (input.toList.drop 5).contains ' ') ||
  strHasPrefix "create_group " input ||
  strHasPrefix "list_groups" input ||
  strHasPrefix "list_members" input ||
  strHasPrefix "join_group " input ||
  strHasPrefix "send_group " input ||
  strHasPrefix "leave_group" input

/-! ## Concrete fixtures used by witnesses and counterexamples -/

def mdW : Metadata := ⟨"a", "1.2.3.4", 5000, 6001⟩

def recAW : PresenceRecord := ⟨"a", "1.2.3.4", 5000, 6001, "10.0.0.1"⟩

def recBW : PresenceRecord := ⟨"b", "1.2.3.4", 5000, 6002, "10.0.0.2"⟩

def recCW : PresenceRecord := ⟨"c", "1.2.3.4", 5000, 6003, "10.0.0.3"⟩

def connsW : List (String × PresenceRecord) :=
  [("a", recAW), ("b", recBW), ("c", recCW)]

def sstW : ServerState := ⟨connsW, [("g", ["a", "b", "c"])], []⟩

def cstW : ClientState := ⟨mdW, connsW, true, none, false, [], false⟩

/-- Record assignment for the group-broadcast witness. -/
def recOfW (n : String) : PresenceRecord :=
  if n = "b" then recBW else recCW

/-- A client in group mode with an empty inbox. -/
def cstG : ClientState := ⟨mdW, connsW, true, some "g", false, [], false⟩

/-- A client in group mode with two buffered direct messages. -/
def cstG2 : ClientState :=
  ⟨mdW, connsW, true, some "g", false, [("x", "m1"), ("y", "m2")], false⟩

/-! ## Claim theorems -/

/-- C1: for every invocation of the reliable send retry loop in which
the acknowledgment flag is never cleared, the loop performs exactly 6
send attempts separated by exactly 5 inter-attempt delays of 500 ms,
and then invokes the escalation action exactly once. -/
theorem reliable_send_exhaustion (acked : Nat → Bool) (h : ∀ k, acked k = false) :
    reliable_send acked = (6, 5, 1) := by
  simp [reliable_send, retry_loop, retry_go, h]

theorem reliable_send_exhaustion_witness :
    reliable_send (fun _ => false) = (6, 5, 1) :=
  reliable_send_exhaustion (fun _ => false) (fun _ => rfl)

/-- C3: for every registration request whose name is already a key of
the presence table, the server responds with a `registration_error`
envelope and leaves its entire state (in particular the presence table)
unchanged. -/
theorem duplicate_registration_rejected (st : ServerState) (ip : String)
    (env : SEnvelope) (r : PresenceRecord)
    (hty : env.type = "registration")
    (hdup : st.connections.lookup env.metadata.name = some r) :
    server_handle_request st ip env =
      ⟨st, [⟨ip, some env.metadata.client_port, "registration_error",
        .errmsg s!"`{env.metadata.name}` already exists!"⟩], [], none⟩ := by
  simp [server_handle_request, hty, hdup]

theorem duplicate_registration_rejected_witness :
    server_handle_request sstW "9.9.9.9" ⟨"registration", .pnull, mdW⟩ =
      ⟨sstW, [⟨"9.9.9.9", some 6001, "registration_error",
        .errmsg "`a` already exists!"⟩], [], none⟩ :=
  duplicate_registration_rejected sstW "9.9.9.9" ⟨"registration", .pnull, mdW⟩
    recAW rfl rfl

/-- C4 (counterexample): the claim that a decode failure never
terminates the listener loop is false — the single byte `{` fails to
decode, and both listener loops terminate with the uncaught exception
rather than continuing. -/
theorem decode_failure_cex :
    decode_message ['{'] = none ∧
    server_listen_step ['{'] = .crashed ∧
    client_listen_step ['{'] = .crashed :=
  ⟨rfl, rfl, rfl⟩

/-- C4 (amended): for every inbound datagram whose bytes fail to decode,
the listener loop of both the server and the client terminates with the
uncaught decode exception (the datagram is not dropped; the loop does
not continue): the server's `except socket.error` clause does not catch
`json.JSONDecodeError`, and the client listener has no handler. -/
theorem decode_failure_crashes_listener (data : List Char)
    (h : decode_message data = none) :
    server_listen_step data = .crashed ∧ client_listen_step data = .crashed := by
  simp [server_listen_step, client_listen_step, h]

theorem decode_failure_crashes_listener_witness :
    server_listen_step ['{'] = .crashed ∧ client_listen_step ['{'] = .crashed :=
  decode_failure_crashes_listener ['{'] rfl

/-- C6: the client's `group_message` branch only displays the message;
the `group_message_ack` send is commented out in the source, so no
packet at all is sent (the state is also unchanged).  This contradicts
the claim (and the server's ack-wait task, which expects these acks). -/
theorem group_message_ack_never_sent (st : ClientState) (m s n : String) :
    client_handle_request st ⟨"group_message", .gmsg m s, n⟩ =
      ⟨st, [], [">>> (" ++ pyOptStr st.active_group ++ ") Group_Message <" ++ s ++ "> " ++ m],
        none⟩ :=
  rfl

/-- C7: the outbound direct-message datagram is not addressed to a
recorded peer IP: `Client.send_dm` hardcodes `client_ip = "0.0.0.0"`
and only the port comes from the presence snapshot.  Here the only
recorded address field for `b` is `sender_ip = "10.0.0.2"`, yet the
packet goes to `("0.0.0.0", 6002)`. -/
theorem send_dm_destination_hardcoded :
    (send_dm cstW (fun k => decide (1 ≤ k)) (fun _ => false) "b" "hello").sends =
      [⟨"0.0.0.0", some 6002, "message", .pstr "hello"⟩] := by
  decide

/-- C8: for every `send <name> <text>` command whose recipient is
absent from the local presence snapshot, the client logs a local
failure and sends zero network packets. -/
theorem send_absent_recipient_no_packets (st : ClientState)
    (acked ackedOff : Nat → Bool) (name text : String)
    (h : st.connections.lookup name = none) :
    send_dm st acked ackedOff name text =
      { sends := [], sleeps := 0,
        logs := [s!"Unable to send to non-existent {name}."], stopped := false } := by
  simp [send_dm, h]

theorem send_absent_recipient_no_packets_witness :
    send_dm cstW (fun _ => false) (fun _ => false) "zoe" "hi" =
      { sends := [], sleeps := 0,
        logs := ["Unable to send to non-existent zoe."], stopped := false } :=
  send_absent_recipient_no_packets cstW (fun _ => false) (fun _ => false) "zoe" "hi" rfl

/-- C10: `Server.handle_request` is partial on well-formed envelopes: a
`leave_group` for an absent group raises `KeyError`, a `leave_group`
whose requester is not in the member list raises `ValueError`, and a
`client_offline` or `deregistration` naming a client absent from the
connections table raises `KeyError` — in each case no error envelope is
sent (the `deregistration` branch has already sent its confirmation
before raising). -/
theorem server_dispatch_partial :
    server_handle_request sstW "9.9.9.9" ⟨"leave_group", .gref (some "h"), mdW⟩ =
      ⟨sstW, [], [], some (.keyError "h")⟩ ∧
    server_handle_request ⟨connsW, [("g", ["b"])], []⟩ "9.9.9.9"
        ⟨"leave_group", .gref (some "g"), mdW⟩ =
      ⟨⟨connsW, [("g", ["b"])], []⟩, [], [], some .valueError⟩ ∧
    server_handle_request sstW "9.9.9.9" ⟨"client_offline", .pstr "ghost", mdW⟩ =
      ⟨sstW, [], [], some (.keyError "ghost")⟩ ∧
    server_handle_request ⟨[], [], []⟩ "9.9.9.9" ⟨"deregistration", .pnull, mdW⟩ =
      ⟨⟨[], [], []⟩, [⟨"9.9.9.9", some 6001, "deregistration_confirmation", .pnull⟩],
        [], some (.keyError "a")⟩ := by
  decide

/-- C5 (counterexample): the claimed mode gating does not hold — in
direct mode (no active group) the group-mode-only verb `leave_group` is
outside the allowed set, yet the client sends network packets for it. -/
theorem mode_gating_cex :
    spec_allowed cstW.active_group.isSome (verb_of_input "leave_group") = false ∧
    (send_message cstW (fun _ => false) (fun _ => false) (fun _ => true)
      "leave_group").sends ≠ [] := by
  decide

/-- C5 (amended): only two local rejections exist in `send_message`: a
command matching none of the patterns is rejected with no packet, and a
`list_members` command while not in a group is rejected with no packet.
The remaining mode-gated verbs (`create_group`, `list_groups`,
`join_group`, `send_group`, `leave_group`) are dispatched to the server
regardless of mode — e.g. `leave_group` sends a packet in any state
whenever the first loop check sees no ack. -/
theorem mode_gating_amended (st : ClientState) (acked ackedOff regAt : Nat → Bool)
    (input : String) :
    (cmd_matched input = false →
      send_message st acked ackedOff regAt input =
        ⟨[], 0, [s!"Unknown command `{input}`."], false⟩) ∧
    (st.active_group = none →
      send_message st acked ackedOff regAt "list_members" =
        ⟨[], 0, ["Invalid command. You need to be in a group first!"], false⟩) ∧
    (acked 0 = false →
      (send_message st acked ackedOff regAt "leave_group").sends ≠ []) := by
  refine ⟨?_, ?_, ?_⟩
  · intro h
    simp only [cmd_matched, Bool.or_eq_false_iff] at h
    obtain ⟨⟨⟨⟨⟨⟨⟨hd, hs⟩, hc⟩, hlg⟩, hlm⟩, hj⟩, hsg⟩, hl⟩ := h
    unfold send_message
    rw [hd, hs, hc, hlg, hlm, hj, hsg, hl]
    simp
  · intro hg
    have e : send_message st acked ackedOff regAt "list_members" =
        (if st.active_group.isNone then
          ⟨[], 0, ["Invalid command. You need to be in a group first!"], false⟩
        else send_list_group_members st acked) := rfl
    rw [e, hg]
    rfl
  · intro h0
    have e : (send_message st acked ackedOff regAt "leave_group").sends =
        List.replicate (retry_loop acked).1
          ⟨st.opts.server_ip, some st.opts.server_port, "leave_group",
            .gref st.active_group⟩ := rfl
    rw [e]
    simp [retry_loop, retry_go, h0]

theorem mode_gating_amended_witness :
    send_message cstW (fun _ => false) (fun _ => false) (fun _ => true) "blah" =
      ⟨[], 0, ["Unknown command `blah`."], false⟩ ∧
    send_message cstW (fun _ => false) (fun _ => false) (fun _ => true) "list_members" =
      ⟨[], 0, ["Invalid command. You need to be in a group first!"], false⟩ ∧
    (send_message cstW (fun _ => false) (fun _ => false) (fun _ => true)
      "leave_group").sends ≠ [] :=
  ⟨(mode_gating_amended cstW (fun _ => false) (fun _ => false) (fun _ => true)
      "blah").1 (by decide),
   (mode_gating_amended cstW (fun _ => false) (fun _ => false) (fun _ => true)
      "blah").2.1 rfl,
   (mode_gating_amended cstW (fun _ => false) (fun _ => false) (fun _ => true)
      "blah").2.2 rfl⟩

/-- C9 (counterexample): a direct message received in group mode from a
sender absent from the local presence snapshot is neither buffered nor
acked: `send_dm_ack` builds the address from `.get(sender, {})`, so the
port is `None` and the send raises `TypeError` before the inbox append,
leaving the state unchanged and sending nothing. -/
theorem dm_unknown_sender_cex :
    client_handle_request cstG ⟨"message", .pstr "hi", "mallory"⟩ =
      ⟨cstG, [], [], some .typeErr⟩ := by
  decide

/-- C9 (amended): for every direct message envelope from a sender
recorded in the local presence snapshot received while `active_group`
is set, the message is appended at the end of the inbox and a
`message_ack` is still sent back; and on `leave_group_ack` the client
prints the buffered inbox in FIFO order and clears it. -/
theorem dm_buffered_and_flushed (st : ClientState) (g sender msg n : String)
    (r : PresenceRecord)
    (hg : st.active_group = some g)
    (hs : st.connections.lookup sender = some r) :
    client_handle_request st ⟨"message", .pstr msg, sender⟩ =
      ⟨{ st with inbox := st.inbox ++ [(sender, msg)] },
        [⟨"0.0.0.0", some r.client_port, "message_ack", .pstr st.opts.name⟩],
        [], none⟩ ∧
    client_handle_request st ⟨"leave_group_ack", .pnull, n⟩ =
      ⟨{ st with waiting_for_ack := false, active_group := none, inbox := [] },
        [], print_inbox st.inbox, none⟩ := by
  constructor
  · simp [client_handle_request, send_dm_ack, ok_out, hg, hs]
  · rfl

theorem dm_buffered_and_flushed_witness :
    client_handle_request cstG2 ⟨"message", .pstr "yo", "b"⟩ =
      ⟨{ cstG2 with inbox := [("x", "m1"), ("y", "m2"), ("b", "yo")] },
        [⟨"0.0.0.0", some 6002, "message_ack", .pstr "a"⟩], [], none⟩ ∧
    client_handle_request cstG2 ⟨"leave_group_ack", .pnull, "srv"⟩ =
      ⟨{ cstG2 with waiting_for_ack := false, active_group := none, inbox := [] },
        [], ["x: m1", "y: m2"], none⟩ :=
  dm_buffered_and_flushed cstG2 "g" "b" "yo" "srv" recBW rfl rfl

/-! ## Helper lemmas for the group broadcast claim -/

theorem lookup_upsert {V : Type} (l : List (String × V)) (k : String) (v : V) :
    (upsert l k v).lookup k = some v := by
  induction l with
  | nil => simp [upsert, List.lookup]
  | cons e t ih =>
    obtain ⟨k1, v1⟩ := e
    by_cases h : k1 = k
    · simp [upsert, h, List.lookup]
    · have hne : (k == k1) = false := by
        simp only [beq_eq_false_iff_ne, ne_eq]
        exact fun hh => h hh.symm
      simp [upsert, h, List.lookup, hne, ih]

theorem remove_first_eq_filter (ms : List String) (c : String)
    (hmem : c ∈ ms) (hnd : ms.Nodup) :
    remove_first ms c = some (ms.filter (fun x => x ≠ c)) := by
  induction ms with
  | nil => cases hmem
  | cons h t ih =>
    rw [List.nodup_cons] at hnd
    by_cases hc : h = c
    · subst hc
      have ht : t.filter (fun x => !decide (x = h)) = t := by
        apply List.filter_eq_self.mpr
        intro x hx
        simp only [Bool.not_eq_eq_eq_not, Bool.not_true, decide_eq_false_iff_not]
        exact fun he => hnd.1 (he ▸ hx)
      simp [remove_first, ht]
    · have hct : c ∈ t := by
        rcases List.mem_cons.mp hmem with he | ht
        · exact absurd he.symm hc
        · exact ht
      simp [remove_first, hc, ih hct hnd.2]

theorem evict_members_spec (g : String) (cs : List String) :
    ∀ (st : ServerState) (ms : List String),
      st.groups.lookup g = some ms → ms.Nodup →
      (∀ c ∈ cs, c ∈ ms) → cs.Nodup →
      ∃ st2, evict_members g st cs = .ok st2 ∧
        st2.groups.lookup g = some (ms.filter (fun m => !(cs.contains m))) ∧
        st2.connections = st.connections ∧
        st2.outbound_group_acks = st.outbound_group_acks := by
  induction cs with
  | nil =>
    intro st ms hg _ _ _
    refine ⟨st, rfl, ?_, rfl, rfl⟩
    simpa using hg
  | cons c rest ih =>
    intro st ms hg hnd hsub hcnd
    have hc : c ∈ ms := hsub c (by simp)
    have hrf := remove_first_eq_filter ms c hc hnd
    rw [List.nodup_cons] at hcnd
    have hg2 : (upsert st.groups g (ms.filter (fun x => x ≠ c))).lookup g =
        some (ms.filter (fun x => x ≠ c)) := lookup_upsert st.groups g _
    have hnd2 : (ms.filter (fun x => x ≠ c)).Nodup := hnd.filter _
    have hsub2 : ∀ x ∈ rest, x ∈ ms.filter (fun x => x ≠ c) := by
      intro x hx
      refine List.mem_filter.mpr ⟨hsub x (List.mem_cons_of_mem c hx), ?_⟩
      simp only [ne_eq, decide_eq_true_eq]
      exact fun he => hcnd.1 (he ▸ hx)
    obtain ⟨stf, he, hlook, hcon, hacks⟩ :=
      ih { st with groups := upsert st.groups g (ms.filter (fun x => x ≠ c)) }
        (ms.filter (fun x => x ≠ c)) hg2 hnd2 hsub2 hcnd.2
    refine ⟨stf, ?_, ?_, hcon, hacks⟩
    · simp only [evict_members, hg, hrf]
      exact he
    · rw [hlook]
      congr 1
      rw [List.filter_filter]
      apply List.filter_congr
      intro x _
      by_cases hxc : x = c <;> simp [hxc]

theorem dispatch_to_members_ok (conns : List (String × PresenceRecord))
    (sender msg : String) (recOf : String → PresenceRecord) :
    ∀ l : List String, (∀ c ∈ l, conns.lookup c = some (recOf c)) →
      dispatch_to_members conns sender msg l =
        .ok (l.map (fun c =>
          ⟨(recOf c).sender_ip, some (recOf c).client_port, "group_message",
            .gmsg msg sender⟩)) := by
  intro l
  induction l with
  | nil => intro _; rfl
  | cons c rest ih =>
    intro h
    have hc := h c (by simp)
    have hrest := ih (fun x hx => h x (List.mem_cons_of_mem c hx))
    simp [dispatch_to_members, hc, hrest]

/-- C2 (counterexample): the broadcast half of the claim fails on a
reachable state.  `deregistration` (like `client_offline`) deletes the
client from the presence table but never from any group member list
(`remove_client` touches only `connections`), so after `b` deregisters
the group `g` still lists `b`; the subsequent fan-out for sender `a`
then hits `self.connections["b"]` and raises `KeyError` — `b` receives
no `group_message` at all, and neither does anyone after it. -/
theorem group_broadcast_missing_member_cex :
    server_handle_request ⟨[("a", recAW), ("b", recBW)], [("g", ["a", "b"])], []⟩
        "10.0.0.2" ⟨"deregistration", .pnull, ⟨"b", "1.2.3.4", 5000, 6002⟩⟩ =
      ⟨⟨[("a", recAW)], [("g", ["a", "b"])], []⟩,
        [⟨"10.0.0.2", some 6002, "deregistration_confirmation", .pnull⟩,
         ⟨"10.0.0.1", some 6001, "state_change", .table [("a", recAW)]⟩], [], none⟩ ∧
    dispatch_group_message ⟨[("a", recAW)], [("g", ["a", "b"])], []⟩ "a" "g" "hi" =
      .error (.keyError "b") := by
  decide

/-- C2 (amended): for a group `G` with duplicate-free member list `M`, each
non-sender member registered in the presence table, and sender `A`,
`dispatch_group_message` sends exactly one `group_message` to each
member of `M` other than `A`, addressed from that member's presence
record; and when the 6-poll ack wait loop exhausts, `wait_for_group_acks`
leaves in `G`'s member list exactly the sender and the members recorded
in the final ack tracker read (evicting every other expected member)
while the global presence table is untouched.  The registration
hypothesis `hrec` is necessary: deregistration and `client_offline`
delete only from `connections`, never from group member lists, so a
fan-out can meet a lingering member and raise `KeyError` instead. -/
theorem group_broadcast_and_eviction
    (st : ServerState) (G A msg : String) (M : List String)
    (recOf : String → PresenceRecord) (trackerAt : Nat → List String)
    (hG : st.groups.lookup G = some M) (hnd : M.Nodup)
    (hrec : ∀ m ∈ M, m ≠ A → st.connections.lookup m = some (recOf m))
    (hexh : ack_poll trackerAt (M.filter (fun u => u ≠ A)) = true) :
    dispatch_group_message st A G msg =
      .ok ((M.filter (fun u => u ≠ A)).map (fun m =>
        ⟨(recOf m).sender_ip, some (recOf m).client_port, "group_message",
          .gmsg msg A⟩)) ∧
    ∃ st2, wait_for_group_acks st trackerAt A G = .ok st2 ∧
      st2.groups.lookup G =
        some (M.filter (fun m => (m == A) || (trackerAt 6).contains m)) ∧
      st2.connections = st.connections := by
  constructor
  · have hall : ∀ c ∈ M.filter (fun u => u ≠ A),
        st.connections.lookup c = some (recOf c) := by
      intro c hcf
      have hm := List.mem_filter.mp hcf
      exact hrec c hm.1 (by simpa using hm.2)
    simp only [dispatch_group_message, hG]
    exact dispatch_to_members_ok st.connections A msg recOf _ hall
  · have hndE : (M.filter (fun u => u ≠ A)).Nodup := hnd.filter _
    have hndU : ((M.filter (fun u => u ≠ A)).filter
        (fun c => !((trackerAt 6).contains c))).Nodup := hndE.filter _
    have hdedup : ((M.filter (fun u => u ≠ A)).filter
        (fun c => !((trackerAt 6).contains c))).dedup =
        (M.filter (fun u => u ≠ A)).filter
          (fun c => !((trackerAt 6).contains c)) :=
      List.dedup_eq_self.mpr hndU
    have hsub : ∀ x ∈ (M.filter (fun u => u ≠ A)).filter
        (fun c => !((trackerAt 6).contains c)), x ∈ M := by
      intro x hx
      exact (List.mem_filter.mp ((List.mem_filter.mp hx).1)).1
    obtain ⟨st2, he, hlook, hcon, _⟩ :=
      evict_members_spec G _ st M hG hnd hsub hndU
    refine ⟨st2, ?_, ?_, hcon⟩
    · simp only [wait_for_group_acks, hG, hexh, if_true, hdedup]
      exact he
    · rw [hlook]
      congr 1
      apply List.filter_congr
      intro x hxM
      by_cases hxA : x = A
      · subst hxA
        have hx1 : x ∉ (M.filter (fun u => u ≠ x)).filter
            (fun c => !((trackerAt 6).contains c)) := by
          intro hm
          simpa using (List.mem_filter.mp (List.mem_filter.mp hm).1).2
        simp [hx1]
      · have hA : (x == A) = false := by simp [hxA]
        by_cases hxT : x ∈ trackerAt 6
        · have hx1 : x ∉ (M.filter (fun u => u ≠ A)).filter
              (fun c => !((trackerAt 6).contains c)) := by
            intro hm
            have h2 := (List.mem_filter.mp hm).2
            simp [hxT] at h2
          have hc : ((M.filter (fun u => u ≠ A)).filter
              (fun c => !((trackerAt 6).contains c))).contains x = false :=
            Bool.eq_false_iff.mpr (fun hcont => hx1 (List.elem_iff.mp hcont))
          have hT : (trackerAt 6).contains x = true := List.elem_iff.mpr hxT
          simp only [hc, hA, hT]
          rfl
        · have hx1 : x ∈ (M.filter (fun u => u ≠ A)).filter
              (fun c => !((trackerAt 6).contains c)) := by
            refine List.mem_filter.mpr ⟨List.mem_filter.mpr ⟨hxM, ?_⟩, ?_⟩
            · simp [hxA]
            · simp [hxT]
          have hc : ((M.filter (fun u => u ≠ A)).filter
              (fun c => !((trackerAt 6).contains c))).contains x = true :=
            List.elem_iff.mpr hx1
          have hT : (trackerAt 6).contains x = false :=
            Bool.eq_false_iff.mpr (fun hcont => hxT (List.elem_iff.mp hcont))
          simp only [hc, hA, hT]
          rfl

theorem group_broadcast_and_eviction_witness :
    dispatch_group_message sstW "a" "g" "hi" =
      .ok ((["a", "b", "c"].filter (fun u => u ≠ "a")).map (fun m =>
        ⟨(recOfW m).sender_ip, some (recOfW m).client_port, "group_message",
          .gmsg "hi" "a"⟩)) ∧
    ∃ st2, wait_for_group_acks sstW (fun _ => ["c"]) "a" "g" = .ok st2 ∧
      st2.groups.lookup "g" =
        some (["a", "b", "c"].filter (fun m =>
          (m == "a") || (["c"] : List String).contains m)) ∧
      st2.connections = sstW.connections :=
  group_broadcast_and_eviction sstW "g" "a" "hi" ["a", "b", "c"] recOfW
    (fun _ => ["c"]) rfl (by decide) (by decide) (by decide)

end Chat
